import Mathlib

/-!
Verification of the dual-strategy PDF text-extraction pipeline and the
request handlers of `src/main.py` (AI PDF Analyzer).

Python strings are modelled as `List Char`; byte buffers as `List Nat`.
The two PDF parsing libraries (PyMuPDF / pdfplumber) and the OpenAI
client are external collaborators: they are modelled as oracle values or
oracle functions supplied as parameters.  A decoder outcome is
`Except (List Char) (List (List Char))`: an exception message, or the
per-page text layers.  Fallible Python code is modelled with `Except`.
-/

namespace PdfAnalyzer

/-- The ASCII whitespace characters stripped by Python's `str.strip()`:
space, tab, newline, carriage return, vertical tab, form feed. -/
def isPySpace (c : Char) : Bool :=
  c = ' ' || c = '\t' || c = '\n' || c = '\r' || c = '\x0b' || c = '\x0c'

/-- Model of Python `str.strip()`: drop leading whitespace, then trailing
whitespace. -/
def pyStrip (l : List Char) : List Char :=
  (l.dropWhile isPySpace).rdropWhile isPySpace

/-- Model of Python `str.startswith(pat)`: `beginsWith pat l` is true when
`pat` is a prefix of `l`. -/
def beginsWith : List Char → List Char → Bool
  | [], _ => true
  | _ :: _, [] => false
  | p :: ps, c :: cs => p = c && beginsWith ps cs

/-- Model of Python `str.endswith(pat)`. -/
def endsWithL (pat l : List Char) : Bool :=
  beginsWith pat.reverse l.reverse

/-- Model of Python `s.split(sep)` for a one-character separator: split at
every occurrence, keeping empty fields; the result is always non-empty. -/
def splitBy (p : Char → Bool) : List Char → List (List Char)
  | [] => [[]]
  | c :: rest =>
    if p c then [] :: splitBy p rest
    else
      match splitBy p rest with
      | [] => [[c]]
      | h :: t => (c :: h) :: t

/-- Model of Python `s.split('\n')`. -/
def splitNl (l : List Char) : List (List Char) :=
  splitBy (fun c => c = '\n') l

/-- Model of Python `s.split()` (no separator): split on whitespace runs,
discarding empty fields. -/
def pyWords (l : List Char) : List (List Char) :=
  (splitBy isPySpace l).filter (fun w => !w.isEmpty)

/-! ## Extraction engine (`extract_text_from_pdf`, src/main.py lines 48-126) -/

/-- The placeholder-code marker `"(cid:"` tested by the quality gate. -/
def cidMark : List Char := "(cid:".toList

/-- Prefix of the exception message raised when both strategies fail
(line 126: `Error extracting text from PDF: {str(e)}`). -/
def extErrPre : List Char := "Error extracting text from PDF: ".toList

/-- Message of the `ValueError` raised when the fallback accumulator is
empty after trimming (line 112). -/
def noTextMsg : List Char :=
  "No text could be extracted from the PDF. The PDF might be image-based or scanned.".toList

/-- The per-page accumulation loop (lines 69-76 and 103-109): for each
page, if its text layer is non-empty, append it followed by a newline;
pages with an empty text layer contribute nothing. -/
def accumPages : List (List Char) → List Char
  | [] => []
  | p :: ps => if p.isEmpty then accumPages ps else p ++ '\n' :: accumPages ps

/-- A decode outcome of one PDF parsing library applied to the byte
stream: an exception message, or the list of per-page text layers. -/
abbrev DecodeResult := Except (List Char) (List (List Char))

/-- The fallback half of `extract_text_from_pdf` (lines 98-126): run
pdfplumber into a fresh accumulator; raise a `ValueError` if the trimmed
accumulator is empty; any exception of the block is re-raised wrapped in
the `extErrPre` prefix. -/
def extractFallback (fallback : DecodeResult) : Except (List Char) (List Char) :=
  match fallback with
  | .error e => .error (extErrPre ++ e)
  | .ok pages =>
    let t := accumPages pages
    if (pyStrip t).isEmpty then .error (extErrPre ++ noTextMsg)
    else .ok (pyStrip t)

/-- `extract_text_from_pdf` (lines 48-126) over the two decoder outcomes:
try PyMuPDF; if it raised, or its trimmed accumulated text is empty or
begins with `"(cid:"`, fall through to the pdfplumber fallback. -/
def extractTextFromPdf (primary fallback : DecodeResult) :
    Except (List Char) (List Char) :=
  match primary with
  | .error _ => extractFallback fallback
  | .ok pages =>
    let t := accumPages pages
    if !(pyStrip t).isEmpty && !beginsWith cidMark (pyStrip t) then
      .ok (pyStrip t)
    else
      extractFallback fallback

/-- The primary strategy fails the quality gate: it raised, or its
trimmed accumulated text is empty or begins with the placeholder marker. -/
def primaryFailsGate (primary : DecodeResult) : Prop :=
  match primary with
  | .error _ => True
  | .ok pages =>
      pyStrip (accumPages pages) = [] ∨
      beginsWith cidMark (pyStrip (accumPages pages)) = true

instance (primary : DecodeResult) : Decidable (primaryFailsGate primary) := by
  unfold primaryFailsGate
  match primary with
  | .error _ => exact inferInstanceAs (Decidable True)
  | .ok pages => exact inferInstanceAs (Decidable (_ ∨ _))

/-! ## LLM collaborators (`generate_summary`, `generate_questions`) -/

/-- Summary collaborator oracle: maps (language, sent text) to the raw
message content of the chat completion, or an exception message. -/
abbrev SummaryOracle := List Char → List Char → Except (List Char) (List Char)

/-- Questions collaborator oracle: maps (question count, language, sent
text) to raw message content, or an exception message. -/
abbrev QuestionsOracle := Int → List Char → List Char → Except (List Char) (List Char)

/-- `generate_summary` (lines 129-182): truncate the text to its first
16000 characters, call the collaborator, return the stripped content;
wrap any exception. -/
def generateSummary (gen : SummaryOracle) (text language : List Char) :
    Except (List Char) (List Char) :=
  match gen language (text.take 16000) with
  | .error e => .error ("Error generating summary with OpenAI: ".toList ++ e)
  | .ok content => .ok (pyStrip content)

/-- `generate_questions` (lines 185-245): truncate the text to its first
16000 characters, call the collaborator, strip the content, split it on
newlines keeping each line stripped when its stripped form is non-empty
(line 238), then filter out empty entries again (line 241). -/
def generateQuestions (gen : QuestionsOracle) (text : List Char)
    (numQuestions : Int) (language : List Char) :
    Except (List Char) (List (List Char)) :=
  match gen numQuestions language (text.take 16000) with
  | .error e => .error ("Error generating questions with OpenAI: ".toList ++ e)
  | .ok content =>
    let questionsText := pyStrip content
    let questions := (splitNl questionsText).filterMap
      (fun q => if (pyStrip q).isEmpty then none else some (pyStrip q))
    .ok (questions.filter (fun q => !q.isEmpty))

/-! ## Request handlers (FastAPI routes, src/main.py lines 248-436) -/

/-- `MAX_FILE_SIZE_BYTES = 70 * 1024 * 1024` (lines 44-45). -/
def MAX_FILE_SIZE_BYTES : Nat := 70 * 1024 * 1024

/-- An uploaded file: its filename and its raw byte content. -/
structure FileUpload where
  filename : List Char
  content : List Nat

/-- An `HTTPException`: status code and detail message. -/
structure HTTPError where
  status : Nat
  detail : List Char
deriving DecidableEq

/-- A raised Python exception at the handler boundary: either an
`HTTPException` or a plain exception carrying its `str(e)` message. -/
inductive PyExc where
  | http (e : HTTPError)
  | plain (msg : List Char)
deriving DecidableEq

/-- Model of starlette's `HTTPException.__str__`:
`f"{self.status_code}: {self.detail}"`. -/
def strOfHTTP (e : HTTPError) : List Char :=
  (toString e.status).toList ++ ": ".toList ++ e.detail

/-- `str(e)` for an exception caught by a bare `except Exception`. -/
def strOfExc : PyExc → List Char
  | .http e => strOfHTTP e
  | .plain m => m

/-- `validate_pdf_upload` (lines 248-264): 400 if no file was uploaded,
400 if the filename does not end in `".pdf"`, otherwise no exception. -/
def validatePdfUpload (file : Option FileUpload) : Option HTTPError :=
  match file with
  | none => some ⟨400, "No file uploaded".toList⟩
  | some f =>
    if !endsWithL ".pdf".toList f.filename then
      some ⟨400, "Only PDF files are allowed".toList⟩
    else none

/-- The size-limit detail message (lines 309-311 etc.):
`f"File size exceeds {MAX_FILE_SIZE_MB} MB limit"`. -/
def sizeMsg : List Char := "File size exceeds 70 MB limit".toList

/-- The question-count detail message (lines 368-372). -/
def countMsg : List Char := "Number of questions must be between 1 and 50".toList

/-- Decoder oracles: each PDF parsing library as a function from the raw
bytes to its decode outcome. -/
abbrev DecOracle := List Nat → DecodeResult

/-- The character-count preview expression of lines 326 and 397:
`extracted_text[:200] + "..." if len(extracted_text) > 200 else extracted_text`. -/
def textPreview (t : List Char) : List Char :=
  if t.length > 200 then t.take 200 ++ "...".toList else t

/-- Success payload of `POST /upload/summary` (lines 320-327). -/
structure SummaryResponse where
  filename : List Char
  summary : List Char
  language : List Char
  extractedChars : Nat
  textPreview : List Char
deriving DecidableEq

/-- Success payload of `POST /upload/questions` (lines 390-398). -/
structure QuestionsResponse where
  filename : List Char
  questions : List (List Char)
  numQuestions : Int
  language : List Char
  extractedChars : Nat
  textPreview : List Char
deriving DecidableEq

/-- Success payload of `POST /test/extract` (lines 425-433). -/
structure ExtractResponse where
  filename : List Char
  totalCharacters : Nat
  totalWords : Nat
  first500Chars : List Char
  last500Chars : List Char
  fullTextLength : Nat
deriving DecidableEq

/-- The `try` block of `upload_summary` (lines 300-327): validate the
upload, check the size limit, extract, generate the summary, and shape
the response.  Errors are the raised exceptions. -/
def uploadSummaryBody (pd fd : DecOracle) (gen : SummaryOracle)
    (file : Option FileUpload) (language : List Char) :
    Except PyExc SummaryResponse :=
  match validatePdfUpload file with
  | some e => .error (.http e)
  | none =>
    match file with
    | none => .error (.http ⟨400, "No file uploaded".toList⟩)
    | some f =>
      if f.content.length > MAX_FILE_SIZE_BYTES then
        .error (.http ⟨400, sizeMsg⟩)
      else
        match extractTextFromPdf (pd f.content) (fd f.content) with
        | .error m => .error (.plain m)
        | .ok t =>
          match generateSummary gen t language with
          | .error m => .error (.plain m)
          | .ok s =>
            .ok ⟨f.filename, s, language, t.length, textPreview t⟩

/-- `upload_summary` (lines 275-332): the body, with `HTTPException`
re-raised as-is and any other exception wrapped into a 500
`Error processing PDF: {str(e)}`. -/
def uploadSummary (pd fd : DecOracle) (gen : SummaryOracle)
    (file : Option FileUpload) (language : List Char) :
    Except HTTPError SummaryResponse :=
  match uploadSummaryBody pd fd gen file language with
  | .ok r => .ok r
  | .error (.http e) => .error e
  | .error (.plain m) => .error ⟨500, "Error processing PDF: ".toList ++ m⟩

/-- The `try` block of `upload_questions` (lines 363-398): validate the
upload, check the question-count range, check the size limit, extract,
generate questions, and shape the response. -/
def uploadQuestionsBody (pd fd : DecOracle) (gen : QuestionsOracle)
    (file : Option FileUpload) (numQuestions : Int) (language : List Char) :
    Except PyExc QuestionsResponse :=
  match validatePdfUpload file with
  | some e => .error (.http e)
  | none =>
    match file with
    | none => .error (.http ⟨400, "No file uploaded".toList⟩)
    | some f =>
      if numQuestions < 1 ∨ numQuestions > 50 then
        .error (.http ⟨400, countMsg⟩)
      else if f.content.length > MAX_FILE_SIZE_BYTES then
        .error (.http ⟨400, sizeMsg⟩)
      else
        match extractTextFromPdf (pd f.content) (fd f.content) with
        | .error m => .error (.plain m)
        | .ok t =>
          match generateQuestions gen t numQuestions language with
          | .error m => .error (.plain m)
          | .ok qs =>
            .ok ⟨f.filename, qs, numQuestions, language, t.length, textPreview t⟩

/-- `upload_questions` (lines 335-403): the body, with `HTTPException`
re-raised as-is and any other exception wrapped into a 500. -/
def uploadQuestions (pd fd : DecOracle) (gen : QuestionsOracle)
    (file : Option FileUpload) (numQuestions : Int) (language : List Char) :
    Except HTTPError QuestionsResponse :=
  match uploadQuestionsBody pd fd gen file numQuestions language with
  | .ok r => .ok r
  | .error (.http e) => .error e
  | .error (.plain m) => .error ⟨500, "Error processing PDF: ".toList ++ m⟩

/-- The `try` block of `test_extract` (lines 412-433). -/
def testExtractBody (pd fd : DecOracle) (file : Option FileUpload) :
    Except PyExc ExtractResponse :=
  match validatePdfUpload file with
  | some e => .error (.http e)
  | none =>
    match file with
    | none => .error (.http ⟨400, "No file uploaded".toList⟩)
    | some f =>
      if f.content.length > MAX_FILE_SIZE_BYTES then
        .error (.http ⟨400, sizeMsg⟩)
      else
        match extractTextFromPdf (pd f.content) (fd f.content) with
        | .error m => .error (.plain m)
        | .ok t =>
          .ok ⟨f.filename, t.length, (pyWords t).length, t.take 500,
               if t.length > 500 then t.drop (t.length - 500) else t, t.length⟩

/-- `test_extract` (lines 406-436): its `except Exception` clause has no
preceding `except HTTPException` re-raise, so EVERY exception of the
body — `HTTPException`s included — is converted into a 500
`Error: {str(e)}`. -/
def testExtract (pd fd : DecOracle) (file : Option FileUpload) :
    Except HTTPError ExtractResponse :=
  match testExtractBody pd fd file with
  | .ok r => .ok r
  | .error ex => .error ⟨500, "Error: ".toList ++ strOfExc ex⟩

/-! ## Helper lemmas -/

/-- Dropping a leading run of `p` again after `rdropWhile` changes
nothing, provided the list already had no leading run of `p`. -/
theorem dropWhile_rdropWhile_of_dropWhile_eq_self (p : Char → Bool) (x : List Char)
    (hxx : x.dropWhile p = x) : (x.rdropWhile p).dropWhile p = x.rdropWhile p := by
  obtain ⟨t, ht⟩ := List.rdropWhile_prefix p x
  rcases hr : x.rdropWhile p with _ | ⟨c, r⟩
  · simp
  · rw [hr] at ht
    have hx0 : x = c :: (r ++ t) := by rw [← ht]; simp
    have hc : ¬ p c = true := by
      rw [hx0] at hxx
      have h0 : 0 < (c :: (r ++ t)).length := by simp
      have := List.dropWhile_eq_self_iff.mp hxx h0
      simpa using this
    exact List.dropWhile_cons_of_neg hc

/-- `pyStrip` is idempotent: stripped text is already stripped. -/
theorem pyStrip_idem (l : List Char) : pyStrip (pyStrip l) = pyStrip l := by
  unfold pyStrip
  rw [dropWhile_rdropWhile_of_dropWhile_eq_self _ _ (List.dropWhile_idempotent _ _),
    List.rdropWhile_idempotent]

/-- Unfolding equation: the pipeline at a successful primary decode. -/
theorem extract_ok_def (pages : List (List Char)) (fallback : DecodeResult) :
    extractTextFromPdf (.ok pages) fallback =
      if (!(pyStrip (accumPages pages)).isEmpty &&
          !beginsWith cidMark (pyStrip (accumPages pages))) = true then
        .ok (pyStrip (accumPages pages))
      else extractFallback fallback := rfl

/-- Unfolding equation: the pipeline at a raising primary decode. -/
theorem extract_err_def (e : List Char) (fallback : DecodeResult) :
    extractTextFromPdf (.error e) fallback = extractFallback fallback := rfl

/-- Whenever `extractFallback` succeeds, the result is the trimmed
accumulation of the fallback decoder's pages, and it is non-empty. -/
theorem extractFallback_ok (fd : DecodeResult) (s : List Char)
    (h : extractFallback fd = .ok s) :
    ∃ pages, fd = .ok pages ∧ s = pyStrip (accumPages pages) ∧ s ≠ [] := by
  cases fd with
  | error e => simp [extractFallback] at h
  | ok pages =>
    refine ⟨pages, rfl, ?_⟩
    unfold extractFallback at h
    by_cases he : (pyStrip (accumPages pages)).isEmpty
    · simp [he] at h
    · simp only [he, if_false, Bool.false_eq_true] at h
      cases h
      simp_all [List.isEmpty_iff]

/-- When the primary strategy fails the quality gate, the whole pipeline
reduces to the fallback pipeline: any primary output is discarded. -/
theorem extract_of_gateFail (primary fallback : DecodeResult)
    (hgate : primaryFailsGate primary) :
    extractTextFromPdf primary fallback = extractFallback fallback := by
  cases primary with
  | error e => rfl
  | ok pp =>
    unfold primaryFailsGate at hgate
    rw [extract_ok_def, if_neg]
    rcases hgate with h | h
    · simp [h]
    · simp [h]

/-! ## Claim C1 -/

/-- Modelled from the claim's words (not from the code): every page's
text layer is appended with a page-terminating newline, including pages
whose text layer is empty. -/
def specJoinPages : List (List Char) → List Char
  | [] => []
  | p :: ps => p ++ '\n' :: specJoinPages ps

/-- C1 counterexample: for the primary decode `[["a"], [], ["b"]]` (a
middle page with an empty text layer) the code returns `"a\nb"` — the
empty page contributes nothing, not even its newline — while the claim's
join, which gives every page a terminating newline, yields `"a\n\nb"`.
The quality gate passes on this input, so the claim genuinely predicts
the other value. -/
theorem extract_c1_counterexample :
    extractTextFromPdf (.ok [['a'], [], ['b']]) (.error "boom".toList)
      = .ok ['a', '\n', 'b'] ∧
    pyStrip (specJoinPages [['a'], [], ['b']]) = ['a', '\n', '\n', 'b'] ∧
    (['a', '\n', 'b'] : List Char) ≠ ['a', '\n', '\n', 'b'] ∧
    pyStrip (specJoinPages [['a'], [], ['b']]) ≠ [] ∧
    beginsWith cidMark (pyStrip (specJoinPages [['a'], [], ['b']])) = false := by
  refine ⟨rfl, by decide, by decide, by decide, by decide⟩

/-- C1 (amended): when the primary decoder succeeds and its accumulated
text — each non-empty page's text layer followed by a newline, empty
pages contributing nothing — is non-empty after trimming and does not
begin with `"(cid:"`, `extract_text_from_pdf` returns exactly that
trimmed accumulation. -/
theorem extract_primary_success (primary fallback : DecodeResult)
    (pages : List (List Char)) (hp : primary = .ok pages)
    (hne : pyStrip (accumPages pages) ≠ [])
    (hcid : beginsWith cidMark (pyStrip (accumPages pages)) = false) :
    extractTextFromPdf primary fallback = .ok (pyStrip (accumPages pages)) := by
  subst hp
  rw [extract_ok_def, if_pos]
  simp [List.isEmpty_iff, hne, hcid]

/-- Witness for C1 (amended) at the counterexample input. -/
theorem extract_primary_success_witness :
    extractTextFromPdf (.ok [['a'], [], ['b']]) (.error "boom".toList)
      = .ok (pyStrip (accumPages [['a'], [], ['b']])) :=
  extract_primary_success _ _ _ rfl (by decide) (by decide)

/-! ## Claim C2 -/

/-- C2: whenever the primary strategy raised, or its trimmed output is
empty or begins with `"(cid:"`, and the fallback decoder succeeds with
pages whose trimmed accumulation is non-empty, `extract_text_from_pdf`
returns exactly the fallback's trimmed accumulation — built in a fresh
accumulator, with any primary output discarded. -/
theorem extract_fallback_used (primary fallback : DecodeResult)
    (fp : List (List Char)) (hgate : primaryFailsGate primary)
    (hf : fallback = .ok fp) (hne : pyStrip (accumPages fp) ≠ []) :
    extractTextFromPdf primary fallback = .ok (pyStrip (accumPages fp)) := by
  subst hf
  rw [extract_of_gateFail _ _ hgate]
  unfold extractFallback
  simp [List.isEmpty_iff, hne]

/-- Witness for C2: a primary decode beginning with the placeholder
marker is discarded in favour of the fallback decode. -/
theorem extract_fallback_used_witness :
    primaryFailsGate (.ok ["(cid:3) junk".toList]) ∧
    extractTextFromPdf (.ok ["(cid:3) junk".toList]) (.ok [['x']])
      = .ok (pyStrip (accumPages [['x']])) :=
  ⟨by decide, extract_fallback_used _ _ _ (by decide) rfl (by decide)⟩

/-! ## Claim C3 -/

/-- C3: when both decoders yield empty trimmed text the pipeline raises
(the aggregated no-text error) rather than returning; moreover every
string the pipeline does return is non-empty and trimmed. -/
theorem extract_never_empty (primary fallback : DecodeResult) :
    (∀ pp fp, primary = .ok pp → fallback = .ok fp →
        pyStrip (accumPages pp) = [] → pyStrip (accumPages fp) = [] →
        extractTextFromPdf primary fallback = .error (extErrPre ++ noTextMsg)) ∧
    (∀ s, extractTextFromPdf primary fallback = .ok s →
        s ≠ [] ∧ pyStrip s = s) := by
  constructor
  · intro pp fp hp hf hpe hfe
    subst hp; subst hf
    rw [extract_of_gateFail _ _ (by unfold primaryFailsGate; exact Or.inl hpe)]
    unfold extractFallback
    simp [hfe]
  · intro s hs
    have hshape : ∃ t, s = pyStrip t ∧ s ≠ [] := by
      cases primary with
      | error e =>
        rw [extract_err_def] at hs
        obtain ⟨pages, _, hps, hne⟩ := extractFallback_ok _ _ hs
        exact ⟨accumPages pages, hps, hne⟩
      | ok pp =>
        rw [extract_ok_def] at hs
        by_cases hgate :
            (!(pyStrip (accumPages pp)).isEmpty &&
              !beginsWith cidMark (pyStrip (accumPages pp))) = true
        · rw [if_pos hgate] at hs
          cases hs
          refine ⟨accumPages pp, rfl, ?_⟩
          have := (Bool.and_eq_true _ _).mp hgate
          simp_all [List.isEmpty_iff]
        · rw [if_neg hgate] at hs
          obtain ⟨pages, _, hps, hne⟩ := extractFallback_ok _ _ hs
          exact ⟨accumPages pages, hps, hne⟩
    obtain ⟨t, hst, hne⟩ := hshape
    exact ⟨hne, by rw [hst, pyStrip_idem]⟩

/-- Witness for C3: an all-whitespace primary page and an empty fallback
page list produce the no-text error; a returned value is non-empty and
trimmed. -/
theorem extract_never_empty_witness :
    extractTextFromPdf (.ok [[' ']]) (.ok []) = .error (extErrPre ++ noTextMsg) ∧
    (['a'] ≠ ([] : List Char) ∧ pyStrip ['a'] = ['a']) :=
  ⟨(extract_never_empty (.ok [[' ']]) (.ok [])).1 [[' ']] [] rfl rfl
      (by decide) (by decide),
    (extract_never_empty (.ok [['a']]) (.error [])).2 ['a'] rfl⟩

/-! ## Claim C4 -/

/-- C4 counterexample: when the primary decoder raises `"primary boom"`
and the fallback raises `"fallback boom"`, the single failure message
wraps only the fallback's reason; the primary strategy's reason does not
occur anywhere in it, so the message does not aggregate the reasons of
both failed strategies. -/
theorem extract_c4_counterexample :
    extractTextFromPdf (.error "primary boom".toList) (.error "fallback boom".toList)
      = .error (extErrPre ++ "fallback boom".toList) ∧
    ¬ ("primary boom".toList <:+: extErrPre ++ "fallback boom".toList) := by
  exact ⟨rfl, by decide⟩

/-- C4 (amended): when the primary strategy fails its gate and the
fallback also fails, `extract_text_from_pdf` reports a single failure
whose message wraps only the second strategy's reason under a fixed
prefix — distinguishing the no-text-layer case (the `ValueError` naming
an image-based/scanned document) from a generic decode error — without
including the first strategy's reason. -/
theorem extract_double_failure (primary fallback : DecodeResult)
    (hgate : primaryFailsGate primary) :
    (∀ e, fallback = .error e →
        extractTextFromPdf primary fallback = .error (extErrPre ++ e)) ∧
    (∀ fp, fallback = .ok fp → pyStrip (accumPages fp) = [] →
        extractTextFromPdf primary fallback = .error (extErrPre ++ noTextMsg)) := by
  constructor
  · intro e hf
    subst hf
    rw [extract_of_gateFail _ _ hgate]
    rfl
  · intro fp hf hfe
    subst hf
    rw [extract_of_gateFail _ _ hgate]
    unfold extractFallback
    simp [hfe]

/-- Witness for C4 (amended): both error-shape and empty-shape fallback
failures, under a raising primary decoder. -/
theorem extract_double_failure_witness :
    extractTextFromPdf (.error "p".toList) (.error "s".toList)
      = .error (extErrPre ++ "s".toList) ∧
    extractTextFromPdf (.error "p".toList) (.ok [[' ']])
      = .error (extErrPre ++ noTextMsg) :=
  ⟨(extract_double_failure (.error "p".toList) (.error "s".toList)
      (by decide)).1 _ rfl,
    (extract_double_failure (.error "p".toList) (.ok [[' ']])
      (by decide)).2 [[' ']] rfl (by decide)⟩

/-! ## Handler inversion helpers -/

/-- Inversion: a successful `upload_summary` body means the upload was
present, extraction succeeded, generation succeeded, and the response is
shaped from those values. -/
theorem uploadSummaryBody_ok_inv (pd fd : DecOracle) (gen : SummaryOracle)
    (file : Option FileUpload) (lang : List Char) (r : SummaryResponse)
    (h : uploadSummaryBody pd fd gen file lang = .ok r) :
    ∃ f t s, file = some f ∧
      extractTextFromPdf (pd f.content) (fd f.content) = .ok t ∧
      generateSummary gen t lang = .ok s ∧
      r = ⟨f.filename, s, lang, t.length, textPreview t⟩ := by
  unfold uploadSummaryBody at h
  split at h
  · simp at h
  · split at h
    · simp at h
    · rename_i f hf
      split at h
      · simp at h
      · split at h
        · simp at h
        · rename_i t hext
          split at h
          · simp at h
          · rename_i s hgen
            cases h
            exact ⟨f, t, s, rfl, hext, hgen, rfl⟩

/-- Inversion: a successful `upload_questions` body. -/
theorem uploadQuestionsBody_ok_inv (pd fd : DecOracle) (gen : QuestionsOracle)
    (file : Option FileUpload) (nq : Int) (lang : List Char) (r : QuestionsResponse)
    (h : uploadQuestionsBody pd fd gen file nq lang = .ok r) :
    ∃ f t qs, file = some f ∧
      extractTextFromPdf (pd f.content) (fd f.content) = .ok t ∧
      generateQuestions gen t nq lang = .ok qs ∧
      r = ⟨f.filename, qs, nq, lang, t.length, textPreview t⟩ := by
  unfold uploadQuestionsBody at h
  split at h
  · simp at h
  · split at h
    · simp at h
    · rename_i f hf
      split at h
      · simp at h
      · split at h
        · simp at h
        · split at h
          · simp at h
          · rename_i t hext
            split at h
            · simp at h
            · rename_i qs hgen
              cases h
              exact ⟨f, t, qs, rfl, hext, hgen, rfl⟩

/-- A successful `upload_summary` response comes from a successful body. -/
theorem uploadSummary_ok_inv (pd fd : DecOracle) (gen : SummaryOracle)
    (file : Option FileUpload) (lang : List Char) (r : SummaryResponse)
    (h : uploadSummary pd fd gen file lang = .ok r) :
    uploadSummaryBody pd fd gen file lang = .ok r := by
  unfold uploadSummary at h
  split at h
  · rename_i heq
    cases h
    exact heq
  · simp at h
  · simp at h

/-- A successful `upload_questions` response comes from a successful body. -/
theorem uploadQuestions_ok_inv (pd fd : DecOracle) (gen : QuestionsOracle)
    (file : Option FileUpload) (nq : Int) (lang : List Char) (r : QuestionsResponse)
    (h : uploadQuestions pd fd gen file nq lang = .ok r) :
    uploadQuestionsBody pd fd gen file nq lang = .ok r := by
  unfold uploadQuestions at h
  split at h
  · rename_i heq
    cases h
    exact heq
  · simp at h
  · simp at h

/-! ## Claim C7 -/

/-- C7: the `text_preview` field of a success response is the full
extracted text when it has at most 200 characters, and exactly its first
200 characters suffixed with the ellipsis marker when it is longer; and
that is precisely what both upload handlers put in their responses. -/
theorem textPreview_spec (t : List Char) :
    (t.length ≤ 200 → textPreview t = t) ∧
    (200 < t.length → textPreview t = t.take 200 ++ "...".toList) ∧
    (∀ pd fd gen file lang r, uploadSummary pd fd gen file lang = .ok r →
      ∃ f txt, file = some f ∧
        extractTextFromPdf (pd f.content) (fd f.content) = .ok txt ∧
        r.textPreview = textPreview txt) := by
  refine ⟨?_, ?_, ?_⟩
  · intro h
    unfold textPreview
    rw [if_neg (by omega)]
  · intro h
    unfold textPreview
    rw [if_pos (by omega)]
  · intro pd fd gen file lang r h
    obtain ⟨f, txt, s, hfile, hext, _, hr⟩ :=
      uploadSummaryBody_ok_inv _ _ _ _ _ _ (uploadSummary_ok_inv _ _ _ _ _ _ h)
    exact ⟨f, txt, hfile, hext, by rw [hr]⟩

/-- Witness for C7 at a short and a long text. -/
theorem textPreview_spec_witness :
    textPreview "ab".toList = "ab".toList ∧
    textPreview (List.replicate 300 'z') =
      (List.replicate 300 'z').take 200 ++ "...".toList :=
  ⟨(textPreview_spec "ab".toList).1 (by decide),
    (textPreview_spec (List.replicate 300 'z')).2.1
      (by simp only [List.length_replicate]; omega)⟩

/-! ## Claim C9 -/

/-- C9: `validate_pdf_upload` accepts exactly the filenames ending in
the lowercase string `".pdf"`; any other filename — `".PDF"` included —
is rejected with a 400 error. -/
theorem validate_pdf_case_sensitive :
    (∀ f : FileUpload,
      (validatePdfUpload (some f) = none ↔
        endsWithL ".pdf".toList f.filename = true) ∧
      (endsWithL ".pdf".toList f.filename = false →
        validatePdfUpload (some f) =
          some ⟨400, "Only PDF files are allowed".toList⟩)) ∧
    validatePdfUpload (some ⟨"doc.PDF".toList, []⟩) =
      some ⟨400, "Only PDF files are allowed".toList⟩ ∧
    validatePdfUpload (some ⟨"doc.pdf".toList, []⟩) = none := by
  refine ⟨fun f => ⟨?_, ?_⟩, by decide, by decide⟩
  · simp only [validatePdfUpload]
    cases hE : endsWithL ".pdf".toList f.filename
    · simp
    · simp
  · intro h
    simp only [validatePdfUpload]
    rw [h]
    simp

/-- Witness for C9. -/
theorem validate_pdf_case_sensitive_witness :
    validatePdfUpload (some ⟨"a.pdf".toList, []⟩) = none :=
  (validate_pdf_case_sensitive.1 ⟨"a.pdf".toList, []⟩).1.mpr (by decide)

/-! ## Claim C10 -/

/-- C10: the `num_questions` field of a success response is always the
echoed request parameter, never the length of the questions list; and
for some collaborator responses (here three lines when ten questions
were requested) the two disagree. -/
theorem num_questions_echoed (pd fd : DecOracle) (gen : QuestionsOracle)
    (file : Option FileUpload) (nq : Int) (lang : List Char) :
    (∀ r, uploadQuestions pd fd gen file nq lang = .ok r →
        r.numQuestions = nq) ∧
    (∃ r, uploadQuestions (fun _ => .ok [['x']]) (fun _ => .error [])
        (fun _ _ _ => .ok "a\nb\nc".toList)
        (some ⟨"a.pdf".toList, [0]⟩) 10 "English".toList = .ok r ∧
      (r.questions.length : Int) ≠ r.numQuestions) := by
  constructor
  · intro r h
    obtain ⟨f, t, qs, _, _, _, hr⟩ :=
      uploadQuestionsBody_ok_inv _ _ _ _ _ _ _ (uploadQuestions_ok_inv _ _ _ _ _ _ _ h)
    rw [hr]
  · refine ⟨⟨"a.pdf".toList, [['a'], ['b'], ['c']], 10, "English".toList, 1, ['x']⟩,
      rfl, by decide⟩

/-- Witness for C10. -/
theorem num_questions_echoed_witness :
    ∃ r, uploadQuestions (fun _ => .ok [['x']]) (fun _ => .error [])
        (fun _ _ _ => .ok "a\nb\nc".toList)
        (some ⟨"a.pdf".toList, [0]⟩) 10 "English".toList = .ok r ∧
      (r.questions.length : Int) ≠ r.numQuestions :=
  (num_questions_echoed (fun _ => .error []) (fun _ => .error [])
    (fun _ _ _ => .error []) none 0 []).2

/-! ## Concrete inputs shared by the validation claims -/

/-- A decoder oracle that always raises. -/
def decRaise : DecOracle := fun _ => .error "parse error".toList

/-- A summary collaborator that always raises. -/
def sgenRaise : SummaryOracle := fun _ _ => .error "api error".toList

/-- A questions collaborator that always raises. -/
def qgenRaise : QuestionsOracle := fun _ _ _ => .error "api error".toList

/-- A `.pdf`-named upload one byte over the 70 MiB limit. -/
def oversizedUpload : FileUpload :=
  ⟨"big.pdf".toList, List.replicate (MAX_FILE_SIZE_BYTES + 1) 0⟩

theorem oversizedUpload_big :
    oversizedUpload.content.length > MAX_FILE_SIZE_BYTES := by
  simp only [oversizedUpload, List.length_replicate]
  omega

/-! ## Size-limit rejection helpers -/

/-- `upload_summary` rejects an oversized `.pdf` upload with a 400
before consulting any oracle. -/
theorem uploadSummary_size_reject (pd fd : DecOracle) (gen : SummaryOracle)
    (f : FileUpload) (lang : List Char)
    (hpdf : endsWithL ".pdf".toList f.filename = true)
    (hsize : f.content.length > MAX_FILE_SIZE_BYTES) :
    uploadSummary pd fd gen (some f) lang = .error ⟨400, sizeMsg⟩ := by
  have hval : validatePdfUpload (some f) = none := by
    simp only [validatePdfUpload]
    rw [hpdf]
    rfl
  have hbody : uploadSummaryBody pd fd gen (some f) lang
      = .error (.http ⟨400, sizeMsg⟩) := by
    simp only [uploadSummaryBody, hval]
    rw [if_pos hsize]
  unfold uploadSummary
  rw [hbody]

/-- `upload_questions` rejects an oversized `.pdf` upload with a 400
when the question count is in range. -/
theorem uploadQuestions_size_reject (pd fd : DecOracle) (gen : QuestionsOracle)
    (f : FileUpload) (nq : Int) (lang : List Char)
    (hpdf : endsWithL ".pdf".toList f.filename = true)
    (hnq : ¬(nq < 1 ∨ nq > 50))
    (hsize : f.content.length > MAX_FILE_SIZE_BYTES) :
    uploadQuestions pd fd gen (some f) nq lang = .error ⟨400, sizeMsg⟩ := by
  have hval : validatePdfUpload (some f) = none := by
    simp only [validatePdfUpload]
    rw [hpdf]
    rfl
  have hbody : uploadQuestionsBody pd fd gen (some f) nq lang
      = .error (.http ⟨400, sizeMsg⟩) := by
    simp only [uploadQuestionsBody, hval]
    rw [if_neg hnq, if_pos hsize]
  unfold uploadQuestions
  rw [hbody]

/-- `test_extract` also stops at the size check before extraction, but
its boundary clause converts the 400 into a 500. -/
theorem testExtract_size_reject (pd fd : DecOracle) (f : FileUpload)
    (hpdf : endsWithL ".pdf".toList f.filename = true)
    (hsize : f.content.length > MAX_FILE_SIZE_BYTES) :
    testExtract pd fd (some f)
      = .error ⟨500, "Error: ".toList ++ strOfHTTP ⟨400, sizeMsg⟩⟩ := by
  have hval : validatePdfUpload (some f) = none := by
    simp only [validatePdfUpload]
    rw [hpdf]
    rfl
  have hbody : testExtractBody pd fd (some f) = .error (.http ⟨400, sizeMsg⟩) := by
    simp only [testExtractBody, hval]
    rw [if_pos hsize]
  unfold testExtract
  rw [hbody]
  rfl

/-! ## Claim C5 -/

/-- C5 counterexample: an upload violating BOTH the size limit and the
question-count range is rejected for the question count: the code checks
the count before the size, while the claim's order (a file, b extension,
c size, d count) predicts a size rejection here. -/
theorem upload_questions_order_counterexample :
    uploadQuestions decRaise decRaise qgenRaise
        (some oversizedUpload) 0 "English".toList = .error ⟨400, countMsg⟩ ∧
    oversizedUpload.content.length > MAX_FILE_SIZE_BYTES ∧
    countMsg ≠ sizeMsg :=
  ⟨rfl, oversizedUpload_big, by decide⟩

/-- C5 (amended): `upload_questions` validates in the order: (a) file
supplied, (b) PDF extension, (d) question count within [1, 50], (c) size
at most 70 MiB; the first failing validation rejects with a 400 naming
that constraint, independently of the extraction and generation oracles
(so extraction is never invoked). -/
theorem upload_questions_validation_order (pd fd : DecOracle)
    (gen : QuestionsOracle) (nq : Int) (lang : List Char) :
    (uploadQuestions pd fd gen none nq lang
        = .error ⟨400, "No file uploaded".toList⟩) ∧
    (∀ f, endsWithL ".pdf".toList f.filename = false →
      uploadQuestions pd fd gen (some f) nq lang
        = .error ⟨400, "Only PDF files are allowed".toList⟩) ∧
    (∀ f, endsWithL ".pdf".toList f.filename = true → (nq < 1 ∨ nq > 50) →
      uploadQuestions pd fd gen (some f) nq lang = .error ⟨400, countMsg⟩) ∧
    (∀ f, endsWithL ".pdf".toList f.filename = true → ¬(nq < 1 ∨ nq > 50) →
      f.content.length > MAX_FILE_SIZE_BYTES →
      uploadQuestions pd fd gen (some f) nq lang = .error ⟨400, sizeMsg⟩) := by
  refine ⟨rfl, ?_, ?_, fun f => uploadQuestions_size_reject pd fd gen f nq lang⟩
  · intro f hf
    have hval : validatePdfUpload (some f)
        = some ⟨400, "Only PDF files are allowed".toList⟩ := by
      simp only [validatePdfUpload]
      rw [hf]
      rfl
    have hbody : uploadQuestionsBody pd fd gen (some f) nq lang
        = .error (.http ⟨400, "Only PDF files are allowed".toList⟩) := by
      simp only [uploadQuestionsBody, hval]
    unfold uploadQuestions
    rw [hbody]
  · intro f hf hr
    have hval : validatePdfUpload (some f) = none := by
      simp only [validatePdfUpload]
      rw [hf]
      rfl
    have hbody : uploadQuestionsBody pd fd gen (some f) nq lang
        = .error (.http ⟨400, countMsg⟩) := by
      simp only [uploadQuestionsBody, hval]
      rw [if_pos hr]
    unfold uploadQuestions
    rw [hbody]

/-- Witness for C5 (amended): an in-range extension with an oversized
count is rejected citing the [1, 50] range. -/
theorem upload_questions_validation_order_witness :
    uploadQuestions decRaise decRaise qgenRaise
        (some ⟨"a.pdf".toList, []⟩) 51 "English".toList
      = .error ⟨400, countMsg⟩ :=
  (upload_questions_validation_order decRaise decRaise qgenRaise
      51 "English".toList).2.2.1 ⟨"a.pdf".toList, []⟩ (by decide) (by decide)

/-! ## Claim C6 -/

/-- C6 (code bug): an upload exceeding the 70 MiB limit is rejected
before extraction on all three endpoints, and `upload_summary` and
`upload_questions` report it as a 400 bad request; but `test_extract`,
whose `except Exception` clause lacks the `except HTTPException`
re-raise of its sibling endpoints, converts its own 400 size rejection
into a 500 internal error. -/
theorem oversize_rejected_status :
    uploadSummary decRaise decRaise sgenRaise
        (some oversizedUpload) "English".toList = .error ⟨400, sizeMsg⟩ ∧
    uploadQuestions decRaise decRaise qgenRaise
        (some oversizedUpload) 10 "English".toList = .error ⟨400, sizeMsg⟩ ∧
    testExtract decRaise decRaise (some oversizedUpload)
      = .error ⟨500, "Error: ".toList ++ strOfHTTP ⟨400, sizeMsg⟩⟩ ∧
    "Error: ".toList ++ strOfHTTP ⟨400, sizeMsg⟩
      = "Error: 400: File size exceeds 70 MB limit".toList ∧
    (500 : Nat) ≠ 400 :=
  ⟨uploadSummary_size_reject _ _ _ _ _ (by decide) oversizedUpload_big,
    uploadQuestions_size_reject _ _ _ _ _ _ (by decide) (by decide) oversizedUpload_big,
    testExtract_size_reject _ _ _ (by decide) oversizedUpload_big,
    by decide, by decide⟩

/-! ## Claim C8: question-list splitting -/

/-- Modelled from the spec's words: split the collaborator's response on
newlines, strip each line, and remove the blank lines; this `map` +
`filter` form keeps all non-blank lines, stripped, in original order. -/
def questionsSpec (resp : List Char) : List (List Char) :=
  ((splitNl resp).map pyStrip).filter (fun q => !q.isEmpty)

theorem splitBy_ne_nil (p : Char → Bool) (l : List Char) : splitBy p l ≠ [] := by
  cases l with
  | nil => simp [splitBy]
  | cons c rest =>
    unfold splitBy
    by_cases hp : p c
    · simp [hp]
    · rw [if_neg (by simp [hp])]
      rcases splitBy p rest with _ | ⟨h, t⟩ <;> simp

theorem splitNl_cons_nl (t : List Char) : splitNl ('\n' :: t) = [] :: splitNl t := rfl

theorem splitNl_cons_eq (a : Char) (ha : a ≠ '\n') (l h : List Char)
    (tl : List (List Char)) (hl : splitNl l = h :: tl) :
    splitNl (a :: l) = (a :: h) :: tl := by
  unfold splitNl at hl ⊢
  unfold splitBy
  rw [if_neg (by simp [ha]), hl]

theorem splitNl_singleton (c : Char) (hc : c ≠ '\n') : splitNl [c] = [[c]] := by
  exact splitNl_cons_eq c hc [] [] [] rfl

theorem splitNl_append_nl (l : List Char) :
    splitNl (l ++ ['\n']) = splitNl l ++ [[]] := by
  induction l with
  | nil => rfl
  | cons a l ih =>
    by_cases ha : a = '\n'
    · subst ha
      rw [List.cons_append, splitNl_cons_nl, splitNl_cons_nl, ih]
      rfl
    · rcases hsp : splitNl l with _ | ⟨h, tl⟩
      · exact absurd hsp (splitBy_ne_nil _ _)
      · have h1 := splitNl_cons_eq a ha l h tl hsp
        have h2 := splitNl_cons_eq a ha (l ++ ['\n']) h (tl ++ [[]])
          (by rw [ih, hsp]; rfl)
        rw [List.cons_append, h2, h1]
        rfl

/-- Appending one non-newline character extends the last field of the
newline split and leaves all earlier fields unchanged. -/
theorem splitNl_append_single (c : Char) (hc : c ≠ '\n') (l : List Char) :
    ∃ ys y, splitNl l = ys ++ [y] ∧ splitNl (l ++ [c]) = ys ++ [y ++ [c]] := by
  induction l with
  | nil =>
    refine ⟨[], [], rfl, ?_⟩
    rw [List.nil_append, splitNl_singleton c hc]
    rfl
  | cons a l ih =>
    obtain ⟨ys, y, hy, hyc⟩ := ih
    by_cases ha : a = '\n'
    · subst ha
      refine ⟨[] :: ys, y, ?_, ?_⟩
      · rw [splitNl_cons_nl, hy]
        rfl
      · rw [List.cons_append, splitNl_cons_nl, hyc]
        rfl
    · cases ys with
      | nil =>
        refine ⟨[], a :: y, ?_, ?_⟩
        · rw [splitNl_cons_eq a ha l y [] (by rw [hy]; rfl)]
          rfl
        · rw [List.cons_append,
            splitNl_cons_eq a ha (l ++ [c]) (y ++ [c]) [] (by rw [hyc]; rfl)]
          rfl
      | cons z ys =>
        refine ⟨(a :: z) :: ys, y, ?_, ?_⟩
        · rw [splitNl_cons_eq a ha l z (ys ++ [y]) (by rw [hy]; rfl)]
          rfl
        · rw [List.cons_append,
            splitNl_cons_eq a ha (l ++ [c]) z (ys ++ [y ++ [c]]) (by rw [hyc]; rfl)]
          rfl

theorem pyStrip_cons_space (x : List Char) (c : Char) (hc : isPySpace c = true) :
    pyStrip (c :: x) = pyStrip x := by
  unfold pyStrip
  rw [List.dropWhile_cons_of_pos hc]

theorem dropWhile_append_eq (p : Char → Bool) (x y : List Char) :
    (x ++ y).dropWhile p =
      if (x.dropWhile p).isEmpty then y.dropWhile p else x.dropWhile p ++ y := by
  induction x with
  | nil => simp
  | cons a x ih =>
    by_cases hp : p a
    · simpa [List.dropWhile_cons_of_pos hp] using ih
    · simp [List.dropWhile_cons_of_neg hp]

theorem pyStrip_append_space (x : List Char) (c : Char) (hc : isPySpace c = true) :
    pyStrip (x ++ [c]) = pyStrip x := by
  unfold pyStrip
  rw [dropWhile_append_eq]
  by_cases h : (x.dropWhile isPySpace).isEmpty
  · rw [if_pos h]
    have h0 : x.dropWhile isPySpace = [] := by simpa [List.isEmpty_iff] using h
    rw [h0, List.dropWhile_cons_of_pos hc]
    rfl
  · rw [if_neg h]
    exact List.rdropWhile_concat_pos _ _ _ hc

theorem questionsSpec_cons_nl (x : List Char) :
    questionsSpec ('\n' :: x) = questionsSpec x := by
  unfold questionsSpec
  rw [splitNl_cons_nl, List.map_cons]
  have h0 : pyStrip [] = [] := rfl
  rw [h0]
  simp

theorem questionsSpec_cons_space (a : Char) (ha : a ≠ '\n')
    (hsp : isPySpace a = true) (x : List Char) :
    questionsSpec (a :: x) = questionsSpec x := by
  rcases hx : splitNl x with _ | ⟨h, tl⟩
  · exact absurd hx (splitBy_ne_nil _ _)
  · unfold questionsSpec
    rw [splitNl_cons_eq a ha x h tl hx, hx, List.map_cons, List.map_cons,
      pyStrip_cons_space h a hsp]

theorem questionsSpec_dropWhile (l : List Char) :
    questionsSpec (l.dropWhile isPySpace) = questionsSpec l := by
  induction l with
  | nil => rfl
  | cons a l ih =>
    by_cases hsp : isPySpace a
    · rw [List.dropWhile_cons_of_pos hsp, ih]
      by_cases ha : a = '\n'
      · subst ha
        exact (questionsSpec_cons_nl l).symm
      · exact (questionsSpec_cons_space a ha hsp l).symm
    · rw [List.dropWhile_cons_of_neg hsp]

theorem questionsSpec_append_space (c : Char) (hsp : isPySpace c = true)
    (l : List Char) : questionsSpec (l ++ [c]) = questionsSpec l := by
  by_cases hc : c = '\n'
  · subst hc
    unfold questionsSpec
    rw [splitNl_append_nl, List.map_append, List.filter_append]
    have h0 : pyStrip [] = [] := rfl
    simp [h0]
  · obtain ⟨ys, y, hy, hyc⟩ := splitNl_append_single c hc l
    unfold questionsSpec
    rw [hy, hyc, List.map_append, List.map_append, List.filter_append,
      List.filter_append, List.map_singleton, List.map_singleton,
      pyStrip_append_space y c hsp]

theorem questionsSpec_rev_dropWhile (m : List Char) :
    questionsSpec (m.dropWhile isPySpace).reverse = questionsSpec m.reverse := by
  induction m with
  | nil => rfl
  | cons a m ih =>
    by_cases hsp : isPySpace a
    · rw [List.dropWhile_cons_of_pos hsp, List.reverse_cons,
        questionsSpec_append_space a hsp m.reverse]
      exact ih
    · rw [List.dropWhile_cons_of_neg hsp]

theorem questionsSpec_rdropWhile (x : List Char) :
    questionsSpec (x.rdropWhile isPySpace) = questionsSpec x := by
  unfold List.rdropWhile
  have := questionsSpec_rev_dropWhile x.reverse
  rw [List.reverse_reverse] at this
  exact this

/-- Pre-stripping the whole response changes nothing: the per-line strip
and blank-line removal absorb any leading or trailing whitespace. -/
theorem questionsSpec_pyStrip (l : List Char) :
    questionsSpec (pyStrip l) = questionsSpec l := by
  unfold pyStrip
  rw [questionsSpec_rdropWhile, questionsSpec_dropWhile]

/-- The source's conditional comprehension over the split lines equals
the spec's map-then-filter form. -/
theorem filterMap_strip_eq (L : List (List Char)) :
    L.filterMap (fun q => if (pyStrip q).isEmpty then none else some (pyStrip q))
      = (L.map pyStrip).filter (fun q => !q.isEmpty) := by
  induction L with
  | nil => rfl
  | cons a L ih =>
    rw [List.filterMap_cons, List.map_cons, List.filter_cons]
    cases h : (pyStrip a).isEmpty with
    | true => exact ih
    | false => exact congrArg (List.cons (pyStrip a)) ih

theorem filter_nonempty_idem (L : List (List Char)) :
    (L.filter (fun q => !q.isEmpty)).filter (fun q => !q.isEmpty)
      = L.filter (fun q => !q.isEmpty) := by
  rw [List.filter_filter]
  simp

/-- C8: for every collaborator response, the question list produced by
`generate_questions` is exactly the response split on newlines, each
line stripped, blank lines removed — all non-blank lines preserved,
stripped, in their original order (the source's whole-response pre-strip
and its second blank filter change nothing). -/
theorem generateQuestions_spec (gen : QuestionsOracle) (text : List Char)
    (nq : Int) (lang : List Char) (resp : List Char)
    (hgen : gen nq lang (text.take 16000) = .ok resp) :
    generateQuestions gen text nq lang = .ok (questionsSpec resp) := by
  unfold generateQuestions
  rw [hgen]
  show Except.ok (((splitNl (pyStrip resp)).filterMap
      (fun q => if (pyStrip q).isEmpty then none else some (pyStrip q))).filter
        (fun q => !q.isEmpty)) = Except.ok (questionsSpec resp)
  rw [filterMap_strip_eq]
  show Except.ok ((questionsSpec (pyStrip resp)).filter (fun q => !q.isEmpty)) = _
  rw [questionsSpec_pyStrip]
  show Except.ok ((((splitNl resp).map pyStrip).filter (fun q => !q.isEmpty)).filter
      (fun q => !q.isEmpty)) = _
  rw [filter_nonempty_idem]
  rfl

/-- Witness for C8 on a concrete three-line response with blank lines
and stray spacing. -/
theorem generateQuestions_spec_witness :
    generateQuestions (fun _ _ _ => .ok "  1. a \n\n 2. b\n\n".toList) ['t'] 2 []
      = .ok (questionsSpec "  1. a \n\n 2. b\n\n".toList) :=
  generateQuestions_spec _ _ _ _ _ rfl

end PdfAnalyzer
